import Mathlib

/-!
Verification of the snapshot-diff-and-notify pipeline of the barby-concert-bot
repository.  The definitions below are shallow embeddings of the Python source:

* `src/aws_lambda/lambda_function.py` — orchestrator (`lambda_handler`),
  notification dispatcher (`BarbyConcertNotifier`), message renderer
  (`format_single_concert_message`), image resolution (`get_concert_image_url`);
* `src/redis_logic/redis_concert_cache.py` — snapshot store and subscriber
  registry (`RedisConcertCache`);
* `src/src/barby_api_scraper.py` — source adapter (`BarbyApiScraper`).

Modelling conventions:
* Python dicts holding a concert are modelled by the structure `Concert`, whose
  fields are the keys the embedded functions read.  Keys that may be absent
  (read via `dict.get`) are `Option String`; keys that `parse_show` always
  writes are plain values.
* External I/O (Redis, the Telegram bot) is modelled by explicit oracle values
  (`TgBot`, the `readFails` flag, the `saveOk` flag) standing for the outcome of
  each call; a Python exception raised by a collaborator is an
  `Except.error msg` outcome.  Code that catches an exception and returns a
  value is embedded as a total function on those outcomes.
-/

/-- Python `str.lower()` (per-character lowering; the matched phrases are ASCII). -/
def lowerStr (s : String) : String := ⟨s.data.map Char.toLower⟩

/-- Drop leading and trailing whitespace of a character list. -/
def trimChars (l : List Char) : List Char :=
  ((l.dropWhile Char.isWhitespace).reverse.dropWhile Char.isWhitespace).reverse

/-- Python `str.strip()` with no argument: remove leading and trailing
whitespace. -/
def pyStrip (s : String) : String := ⟨trimChars s.data⟩

/-- Worker for Python `str.split()` with no argument: split on whitespace
runs and drop empty tokens; the accumulator holds the current token
reversed. -/
def splitWsGo : List Char → List Char → List (List Char)
  | [], acc => if acc.isEmpty then [] else [acc.reverse]
  | c :: rest, acc =>
    if c.isWhitespace then
      if acc.isEmpty then splitWsGo rest [] else acc.reverse :: splitWsGo rest []
    else splitWsGo rest (c :: acc)

/-- Python `str.split()` with no argument. -/
def pySplitWords (s : String) : List String := (splitWsGo s.data []).map String.mk

/-- Substring test on character lists: does the second list contain the first
as a contiguous run?  Used to embed the Python `needle in haystack` test. -/
def subOf (needle : List Char) : List Char → Bool
  | [] => needle.isEmpty
  | c :: rest => needle.isPrefixOf (c :: rest) || subOf needle rest

/-- Python `phrase in str(e).lower()` where `phrase` is already lowercase
(lambda_function.py lines 86 and 97-99). -/
def strHas (hay phrase : String) : Bool := subOf phrase.data (lowerStr hay).data

/-- Permanent-failure classification from lambda_function.py lines 97-100:
`"chat not found" in str(e).lower() or "bot was blocked" in str(e).lower()`. -/
def isPermanent (e : String) : Bool :=
  strHas e "chat not found" || strHas e "bot was blocked"

/-- Attachment-failure classification from lambda_function.py line 86:
`"photo" in str(e).lower()`. -/
def isPhotoErr (e : String) : Bool := strHas e "photo"

/-- Python `" ".join(s.split())`: split on whitespace runs, drop empties,
re-join with single spaces (lambda_function.py line 137). -/
def normalizeWs (s : String) : String :=
  String.intercalate " " (pySplitWords s)

/-- One show object of the upstream JSON payload, with the keys `parse_show`
reads; every key may be absent.  `showSold` defaults to the integer 0 in the
source; it is modelled as the string "0" (the source immediately applies
`str(...)` to it). -/
structure RawShow where
  showId : Option String := none
  showName : Option String := none
  showTitle : Option String := none
  showShortTitle : Option String := none
  showDate : Option String := none
  showTime : Option String := none
  showPrice : Option String := none
  showSold : Option String := none
  showSoldMaxBuy : Option String := none
  showSeatType : Option String := none
  notbybarbtsellsoldout : Option String := none
deriving DecidableEq

/-- A concert dict.  The plain-typed fields are the keys written by
`parse_show` (barby_api_scraper.py lines 113-131); the `Option String` fields
are the raw-payload keys that `format_single_concert_message` and
`get_concert_image_url` read via `dict.get` (lambda_function.py lines 104-157)
— `parse_show` does not write those keys, so records it produces carry `none`
there.  `event_date` is the parsed date encoded as y*10000+m*100+d;
`id` models the md5 hex digest by its (injective) pre-hash input string. -/
structure Concert where
  id : String := ""
  show_id : String := ""
  artist : String := ""
  title : String := ""
  full_title : String := ""
  short_title : String := ""
  date : String := ""
  time : String := ""
  datetimeStr : String := ""
  event_date : Option Nat := none
  price : String := ""
  sold_tickets : Nat := 0
  max_tickets : String := ""
  seat_type : String := ""
  is_sold_out : Bool := false
  url : String := ""
  raw_data : Option RawShow := none
  showName : Option String := none
  showTitle : Option String := none
  showShortTitle : Option String := none
  showDate : Option String := none
  showTime : Option String := none
  showPrice : Option String := none
  showId : Option String := none
  showSeatType : Option String := none
  notbybarbtsellsoldout : Option String := none
  showImage : Option String := none
deriving DecidableEq

/-! Locals of `format_single_concert_message` (lambda_function.py 104-149),
one definition per Python local. -/

/-- `artist = concert.get("showName", "Unknown Artist").strip()` -/
def msgArtist (c : Concert) : String := pyStrip (c.showName.getD "Unknown Artist")

/-- `title = concert.get("showTitle", "").strip()` -/
def msgTitle (c : Concert) : String := pyStrip (c.showTitle.getD "")

/-- `short_title = concert.get("showShortTitle", "").strip()` -/
def msgShortTitle (c : Concert) : String := pyStrip (c.showShortTitle.getD "")

/-- `date = concert.get("showDate", "")` -/
def msgDate (c : Concert) : String := c.showDate.getD ""

/-- `time = concert.get("showTime", "")` -/
def msgTime (c : Concert) : String := c.showTime.getD ""

/-- `price = concert.get("showPrice", "")` -/
def msgPrice (c : Concert) : String := c.showPrice.getD ""

/-- `show_id = concert.get("showId", "")` -/
def msgShowId (c : Concert) : String := c.showId.getD ""

/-- `seat_type = concert.get("showSeatType", "")` -/
def msgSeatType (c : Concert) : String := c.showSeatType.getD ""

/-- `is_sold_out = concert.get("notbybarbtsellsoldout", "0") == "1"` -/
def msgIsSoldOut (c : Concert) : Bool := c.notbybarbtsellsoldout.getD "0" == "1"

/-- `status = " 🔴 <b>אזל כרטיסים</b>" if is_sold_out else ""` -/
def msgStatus (c : Concert) : String :=
  if msgIsSoldOut c then " 🔴 <b>אזל כרטיסים</b>" else ""

/-- `price_text = f"₪{price}" if price else "TBA"` -/
def msgPriceText (c : Concert) : String :=
  if msgPrice c ≠ "" then "₪" ++ msgPrice c else "TBA"

/-- `datetime_str = f"{date} {time}" if date and time else date or "TBA"` -/
def msgDatetimeStr (c : Concert) : String :=
  if msgDate c ≠ "" ∧ msgTime c ≠ "" then msgDate c ++ " " ++ msgTime c
  else if msgDate c ≠ "" then msgDate c else "TBA"

/-- `url = f"https://barby.co.il/show/{show_id}" if show_id else "https://barby.co.il"` -/
def msgUrl (c : Concert) : String :=
  if msgShowId c ≠ "" then "https://barby.co.il/show/" ++ msgShowId c
  else "https://barby.co.il"

/-- `display_title = title or short_title` -/
def msgDisplayTitle (c : Concert) : String :=
  if msgTitle c ≠ "" then msgTitle c else msgShortTitle c

/-- The title-line gate of lambda_function.py line 136:
`if display_title and display_title != artist and len(display_title.strip()) > 3`. -/
def msgIncludeTitle (c : Concert) : Bool :=
  decide (msgDisplayTitle c ≠ "" ∧ msgDisplayTitle c ≠ msgArtist c ∧
    3 < (pyStrip (msgDisplayTitle c)).length)

/-- `clean_title = " ".join(display_title.split())` -/
def msgCleanTitle (c : Concert) : String := normalizeWs (msgDisplayTitle c)

/-- The `" • {seat_type}"` fragment appended when `seat_type` is truthy
(lambda_function.py lines 142-143). -/
def msgSeatPart (c : Concert) : String :=
  if msgSeatType c ≠ "" then " • " ++ msgSeatType c else ""

/-- `format_single_concert_message` (lambda_function.py lines 104-149). -/
def formatSingleConcertMessage (c : Concert) : String :=
  "🆕 <b>הופעה חדשה בבארבי!</b>\n\n" ++
  "🎵 <b>" ++ msgArtist c ++ "</b>\n" ++
  (if msgIncludeTitle c then "📝 <i>" ++ msgCleanTitle c ++ "</i>\n" else "") ++
  "📅 " ++ msgDatetimeStr c ++ "\n" ++
  "💰 " ++ msgPriceText c ++ msgSeatPart c ++ msgStatus c ++ "\n" ++
  "🎫 <a href=\"" ++ msgUrl c ++ "\">קניית כרטיסים</a>\n\n" ++
  "🔔 הודעה מבוט התראות בארבי"

/-- Modelled from the spec's words (§4.4 step 4 / claim C8): the title line is
included iff the display title differs from the artist name and its length
after whitespace normalization exceeds 3 characters.  Defined only to be
compared against the source-derived gate `msgIncludeTitle`. -/
def specTitleIncluded (c : Concert) : Bool :=
  decide (msgDisplayTitle c ≠ msgArtist c ∧
    3 < (normalizeWs (msgDisplayTitle c)).length)

/-- `get_concert_image_url` (lambda_function.py lines 151-157). -/
def getConcertImageUrl (c : Concert) : Option String :=
  let showImage := c.showImage.getD ""
  if showImage ≠ "" then
    some ("https://images.barby.co.il/Logos/" ++ pyStrip showImage)
  else none

/-! Diff engine: lambda_function.py lines 179-188.  A Python dict with string
keys is modelled as an association list in insertion order; assigning an
existing key updates the value in place, a new key is appended. -/

/-- One assignment `d[k] = v` on an insertion-ordered dict. -/
def dictInsert (k : String) (v : Concert) :
    List (String × Concert) → List (String × Concert)
  | [] => [(k, v)]
  | p :: rest => if p.1 = k then (p.1, v) :: rest else p :: dictInsert k v rest

/-- `current_concerts = {concert["show_id"]: concert for concert in concerts}`
(lambda_function.py line 179). -/
def toDict (concerts : List Concert) : List (String × Concert) :=
  concerts.foldl (fun d c => dictInsert c.show_id c d) []

/-- Python `k in d` on a dict. -/
def dictHasKey (d : List (String × Concert)) (k : String) : Bool :=
  d.any (fun p => p.1 == k)

/-- The diff loop of lambda_function.py lines 184-188 (the spec's
`compute_new`): build the keyed dict of the current list, keep the entries
whose key is not in the previous snapshot, in dict order. -/
def computeNew (concerts : List Concert)
    (prev : List (String × Concert)) : List Concert :=
  ((toDict concerts).filter (fun p => !dictHasKey prev p.1)).map Prod.snd

/-- `save_state` drops the `raw_data` key of each record before persisting
(redis_concert_cache.py line 110). -/
def stripRaw (c : Concert) : Concert := { c with raw_data := none }

/-- The snapshot as persisted by `save_state` (redis_concert_cache.py lines
88-127): every current record keyed by id, with `raw_data` removed. -/
def savedDict (current : List (String × Concert)) : List (String × Concert) :=
  current.map (fun p => (p.1, stripRaw p.2))

/-! Subscriber registry: redis_concert_cache.py lines 181-240.  The Redis hash
of subscribers is modelled by its list of user ids (field order); a read
failure of the backend is injected through the `readFails` flag. -/

/-- The registry as seen by the cache reads, with a fault-injection flag
standing for "the Redis client raises on this read". -/
structure RegistryBackend where
  reg : List Int
  readFails : Bool

/-- `get_subscriber_count` (redis_concert_cache.py lines 234-240): `hlen`, or 0
when the read raises. -/
def getSubscriberCount (b : RegistryBackend) : Nat :=
  if b.readFails then 0 else b.reg.length

/-- `get_all_subscribers` (redis_concert_cache.py lines 214-228): the parsed
hash values, or the empty list when the read raises. -/
def getAllSubscribers (b : RegistryBackend) : List Int :=
  if b.readFails then [] else b.reg

/-- Which branch `remove_subscriber` logs (redis_concert_cache.py 207-210). -/
inductive RemoveLog
  | removed
  | notFound
deriving DecidableEq

/-- Everything observable about one `remove_subscriber` call: the registry
afterwards, the log line taken, and the Python return value. -/
structure RemoveOutcome where
  newReg : List Int
  log : RemoveLog
  ret : Option Bool
deriving DecidableEq

/-- `remove_subscriber` (redis_concert_cache.py lines 203-212): `hdel` the
field, log "Removed" when `hdel` returned 1 and a "not found" warning
otherwise; the function returns `None` (there is no `return` statement). -/
def removeSubscriber (reg : List Int) (uid : Int) : RemoveOutcome :=
  let result : Nat := if reg.contains uid then 1 else 0
  { newReg := reg.filter (fun u => u ≠ uid)
  , log := if result = 1 then .removed else .notFound
  , ret := none }

/-! Notification dispatcher: lambda_function.py lines 27-102.  The Telegram
bot is an oracle giving the outcome of each transport call. -/

/-- Outcomes of `bot.send_photo(chat_id, photo, caption)` and
`bot.send_message(chat_id, text)`; an `Except.error e` models the call raising
with message `e`. -/
structure TgBot where
  sendPhoto : Int → String → String → Except String Unit
  sendMessage : Int → String → Except String Unit

/-- One transport call made by the dispatcher (recipient plus payload). -/
inductive Attempt
  | photo (uid : Int) (url : String) (caption : String)
  | text (uid : Int) (message : String)
deriving DecidableEq

/-- The recipient of an attempt. -/
def attemptUid : Attempt → Int
  | .photo u _ _ => u
  | .text u _ => u

/-- The first (primary) delivery call for a subscriber: photo with caption if
an image URL was resolved, else text (lambda_function.py lines 62-76). -/
def primaryAttempt (imageUrl : Option String) (message : String)
    (uid : Int) : Attempt :=
  match imageUrl with
  | some url => .photo uid url message
  | none => .text uid message

/-- Outcome of the primary delivery call for a subscriber. -/
def firstSendResult (bot : TgBot) (imageUrl : Option String) (message : String)
    (uid : Int) : Except String Unit :=
  match imageUrl with
  | some url => bot.sendPhoto uid url message
  | none => bot.sendMessage uid message

/-- The per-subscriber loop body of `send_concert_notification`
(lambda_function.py lines 59-102): primary send; on an exception, one
text-only fallback call when the message mentions "photo" and an image was
attempted (its own failure is swallowed by `except: pass`), and a removal
request when the message matches a permanent-failure phrase.  Returns the
transport calls made and whether the subscriber is removed. -/
def handleSubscriber (bot : TgBot) (imageUrl : Option String) (message : String)
    (uid : Int) : List Attempt × Bool :=
  match imageUrl with
  | some url =>
    match bot.sendPhoto uid url message with
    | .ok _ => ([.photo uid url message], false)
    | .error e =>
      (.photo uid url message ::
        (if isPhotoErr e then [Attempt.text uid message] else []),
       isPermanent e)
  | none =>
    match bot.sendMessage uid message with
    | .ok _ => ([.text uid message], false)
    | .error e => ([.text uid message], isPermanent e)

/-- The `for subscriber in subscribers.copy():` loop of
`send_concert_notification`: the first list is the point-in-time copy being
iterated, the second the live registry that removals mutate. -/
def dispatchLoop (bot : TgBot) (imageUrl : Option String) (message : String) :
    List Int → List Int → List Attempt × List Int
  | [], reg => ([], reg)
  | uid :: rest, reg =>
    let r := handleSubscriber bot imageUrl message uid
    let reg' := if r.2 then (removeSubscriber reg uid).newReg else reg
    let out := dispatchLoop bot imageUrl message rest reg'
    (r.1 ++ out.1, out.2)

/-- `send_concert_notification` (lambda_function.py lines 47-102): render the
message, resolve the image, fetch the subscriber list, deliver to each.  The
registry argument is both the list read by `get_all_subscribers` and the live
hash that removals mutate. -/
def sendConcertNotification (bot : TgBot) (c : Concert) (reg : List Int) :
    List Attempt × List Int :=
  dispatchLoop bot (getConcertImageUrl c) (formatSingleConcertMessage c) reg reg

/-- The per-concert loop of `notify_new_concerts` (lambda_function.py lines
42-45): each concert is dispatched to the subscriber list as read at that
point (removals from earlier items are visible to later items). -/
def itemsLoop (readFails : Bool) (bot : TgBot) :
    List Concert → List Int → List Attempt × List Int
  | [], reg => ([], reg)
  | c :: rest, reg =>
    let subs := getAllSubscribers ⟨reg, readFails⟩
    let pass := dispatchLoop bot (getConcertImageUrl c)
      (formatSingleConcertMessage c) subs reg
    let out := itemsLoop readFails bot rest pass.2
    (pass.1 ++ out.1, out.2)

/-- `notify_new_concerts` (lambda_function.py lines 27-45): no-op on an empty
item list; no-op when the subscriber count reads as zero; otherwise dispatch
every item.  Returns the transport calls made and the final registry. -/
def notifyNewConcerts (readFails : Bool) (bot : TgBot) (reg : List Int)
    (items : List Concert) : List Attempt × List Int :=
  if items.isEmpty then ([], reg)
  else if getSubscriberCount ⟨reg, readFails⟩ = 0 then ([], reg)
  else itemsLoop readFails bot items reg

/-! Orchestrator: `lambda_handler` (lambda_function.py lines 160-203).
`load_last_state` is modelled as reading the store directly (its fail-soft
error path is not exercised by any claim); a snapshot-save backend failure is
injected through `saveOk` (the Redis pipeline either commits wholly or raises,
and `save_state` catches the exception and returns normally either way,
redis_concert_cache.py lines 88-130). -/

/-- The dict returned to the trigger caller. -/
structure LambdaResult where
  statusCode : Nat
  body : String
deriving DecidableEq

/-- Externally visible effects of one invocation, in program order. -/
inductive Effect
  | save (snapshot : List (String × Concert)) (ok : Bool)
  | send (a : Attempt)
deriving DecidableEq

/-- Everything one invocation produces: the value returned to the trigger,
the snapshot store afterwards, the subscriber registry afterwards, and the
ordered effect trace. -/
structure LambdaOut where
  result : LambdaResult
  store : List (String × Concert)
  reg : List Int
  trace : List Effect
deriving DecidableEq

/-- `lambda_handler` (lambda_function.py lines 160-203): fetch result in
`concerts`; early neutral return when it is empty; diff against the loaded
snapshot; if the diff is non-empty, save the current snapshot (a backend
failure is swallowed inside `save_state`, leaving the store unchanged) and
then dispatch the new items; return the success result. -/
def lambdaHandler (concerts : List Concert) (store : List (String × Concert))
    (saveOk readFails : Bool) (bot : TgBot) (reg : List Int) : LambdaOut :=
  if concerts.isEmpty then
    ⟨⟨200, "No concerts found"⟩, store, reg, []⟩
  else
    let newConcerts := computeNew concerts store
    if newConcerts.isEmpty then
      ⟨⟨200, "Success!"⟩, store, reg, []⟩
    else
      let saved := savedDict (toDict concerts)
      let store' := if saveOk then saved else store
      let notified := notifyNewConcerts readFails bot reg newConcerts
      ⟨⟨200, "Success!"⟩, store', notified.2,
        .save saved saveOk :: notified.1.map .send⟩

/-! Source adapter: `BarbyApiScraper` (barby_api_scraper.py). -/

/-- The value of `data["returnShow"]["show"]`, which may be a single show
object or an array (barby_api_scraper.py lines 150-155). -/
inductive ShowsNode
  | one (s : RawShow)
  | many (ss : List RawShow)
deriving DecidableEq

/-- A successfully fetched and JSON-parsed payload; `returnShowShow = none`
models a payload without the `returnShow`/`show` keys ("unexpected API
response structure"). -/
structure RawPayload where
  returnShowShow : Option ShowsNode
deriving DecidableEq

/-- `datetime.strptime(show_date, "%d/%m/%Y")` modelled as a day/month range
check on three numeric slash-separated components, encoded as
y*10000+m*100+d so that the numeric order is the calendar order
(month-length validation is omitted). -/
def splitSlashGo : List Char → List Char → List (List Char)
  | [], acc => [acc.reverse]
  | c :: rest, acc =>
    if c = '/' then acc.reverse :: splitSlashGo rest []
    else splitSlashGo rest (c :: acc)

/-- Split a string on the `/` separator (keeping empty components). -/
def splitSlash (s : String) : List (List Char) := splitSlashGo s.data []

/-- The numeric value of a non-empty all-digit character list, else `none`. -/
def digitsVal (l : List Char) : Option Nat :=
  if l ≠ [] ∧ l.all Char.isDigit then
    some (l.foldl (fun n c => n * 10 + (c.toNat - 48)) 0)
  else none

def parseDmyDate (s : String) : Option Nat :=
  match splitSlash s with
  | [d, m, y] =>
    match digitsVal d, digitsVal m, digitsVal y with
    | some dd, some mm, some yy =>
      if 1 ≤ dd ∧ dd ≤ 31 ∧ 1 ≤ mm ∧ mm ≤ 12 then
        some (yy * 10000 + mm * 100 + dd)
      else none
    | _, _, _ => none
  | _ => none

/-- `parse_show` (barby_api_scraper.py lines 67-136).  The md5 `unique_id` is
modelled by its pre-hash input string; the output dict carries the original
payload under `raw_data` and none of the raw display keys. -/
def parseShow (s : RawShow) : Concert :=
  let show_id := s.showId.getD ""
  let show_name := s.showName.getD "Unknown Artist"
  let show_title := s.showTitle.getD ""
  let show_short_title := s.showShortTitle.getD ""
  let show_date := s.showDate.getD ""
  let show_time := s.showTime.getD ""
  let show_price := s.showPrice.getD ""
  let show_sold := s.showSold.getD "0"
  let show_sold_max := s.showSoldMaxBuy.getD ""
  let seat_type := s.showSeatType.getD ""
  let is_sold_out := s.notbybarbtsellsoldout.getD "0" == "1"
  let datetime_str :=
    if show_date ≠ "" ∧ show_time ≠ "" then show_date ++ " " ++ show_time
    else show_date
  let event_date := if show_date ≠ "" then parseDmyDate show_date else none
  let show_url :=
    if show_id ≠ "" then "https://barby.co.il/show/" ++ show_id
    else "https://barby.co.il"
  let unique_id := show_id ++ "_" ++ show_date ++ "_" ++ show_time
  { id := unique_id
  , show_id := show_id
  , artist := show_name
  , title :=
      if show_title ≠ "" then show_title
      else if show_short_title ≠ "" then show_short_title
      else show_name
  , full_title := show_title
  , short_title := show_short_title
  , date := show_date
  , time := show_time
  , datetimeStr := datetime_str
  , event_date := event_date
  , price := show_price
  , sold_tickets := (digitsVal show_sold.data).getD 0
  , max_tickets := show_sold_max
  , seat_type := seat_type
  , is_sold_out := is_sold_out
  , url := show_url
  , raw_data := some s }

/-- Stable insertion into a key-sorted list, placing the new element before
the first element of equal or larger key. -/
def insSorted (key : Concert → Nat) (x : Concert) : List Concert → List Concert
  | [] => [x]
  | y :: ys => if key x ≤ key y then x :: y :: ys else y :: insSorted key x ys

/-- Python's stable `list.sort(key=...)`, modelled as a stable insertion sort. -/
def pySortByKey (key : Concert → Nat) (l : List Concert) : List Concert :=
  List.foldr (insSorted key) [] l

/-- `key=lambda x: x["event_date"] or datetime.min`
(barby_api_scraper.py line 165): records without a parsed date sort first. -/
def concertSortKey (c : Concert) : Nat := c.event_date.getD 0

/-- `get_concerts` (barby_api_scraper.py lines 138-168): on a failed fetch
(`get_shows_raw` returned None) it returns the empty list; otherwise it
normalizes the single-object/array ambiguity, parses each show, and sorts by
event date.  (`parse_show` never takes its exception path on a dict input, so
the `if parsed_show:` filter is the identity here.) -/
def getConcerts (raw : Option RawPayload) : List Concert :=
  match raw with
  | none => []
  | some payload =>
    let shows :=
      match payload.returnShowShow with
      | none => []
      | some (.one s) => [parseShow s]
      | some (.many ss) => ss.map parseShow
    pySortByKey concertSortKey shows

/-! Concrete fixtures used by witness and counterexample theorems. -/

/-- A current record with the spec's example id and an empty (TBA) price. -/
def showA : Concert := { show_id := "5286", price := "" }

/-- A second record. -/
def showB : Concert := { show_id := "b2" }

/-- The same show as `showB` but with a changed price, as stored in a previous
snapshot. -/
def showBv1 : Concert := { show_id := "b2", price := "80" }

/-- A third record. -/
def showC : Concert := { show_id := "c3" }

/-- A transport whose every call succeeds. -/
def okBot : TgBot := ⟨fun _ _ _ => .ok (), fun _ _ => .ok ()⟩

/-- A transport whose every call raises a transient error. -/
def failBot : TgBot :=
  ⟨fun _ _ _ => .error "Internal Server Error",
   fun _ _ => .error "Internal Server Error"⟩

/-- An item carrying an image reference. -/
def c4Concert : Concert := { show_id := "77", showImage := some "logo.png" }

/-- A transport that permanently rejects subscriber 2 and accepts everyone
else. -/
def c4Bot : TgBot :=
  ⟨fun uid _ _ =>
      if uid == 2 then .error "Forbidden: bot was blocked by the user"
      else .ok (),
   fun _ _ => .ok ()⟩

/-- A transport whose photo sends fail with an attachment-classified error and
whose text sends fail with a transient error. -/
def c5Bot : TgBot :=
  ⟨fun _ _ _ =>
      .error "Bad Request: wrong type of the web page content: photo expected",
   fun _ _ => .error "Bad Request: chat restricted"⟩

/-- Renderer input: distinct meaningful title, date without time, sold out,
no price. -/
def c8w1 : Concert :=
  { showName := some "The Artist", showTitle := some "Great Show"
  , showDate := some "01/01/2030", notbybarbtsellsoldout := some "1" }

/-- Renderer input with neither date nor time. -/
def c8w2 : Concert := {}

/-- Renderer input whose display title has 4 characters stripped but only 3
after whitespace normalization. -/
def c8cex : Concert := { showName := some "X", showTitle := some "a  b" }

/-! Lemmas about the insertion-ordered dict and the diff. -/

theorem dictInsert_of_not_mem (k : String) (v : Concert)
    (d : List (String × Concert)) (h : k ∉ d.map Prod.fst) :
    dictInsert k v d = d ++ [(k, v)] := by
  induction d with
  | nil => rfl
  | cons p rest ih =>
    simp only [List.map_cons, List.mem_cons] at h
    push_neg at h
    simp [dictInsert, Ne.symm h.1, ih h.2]

theorem toDict_go (cs : List Concert) (d : List (String × Concert))
    (hnd : (cs.map Concert.show_id).Nodup)
    (hdisj : ∀ c ∈ cs, c.show_id ∉ d.map Prod.fst) :
    cs.foldl (fun acc c => dictInsert c.show_id c acc) d
      = d ++ cs.map (fun c => (c.show_id, c)) := by
  induction cs generalizing d with
  | nil => simp
  | cons c rest ih =>
    simp only [List.map_cons, List.nodup_cons] at hnd
    have hstep : dictInsert c.show_id c d = d ++ [(c.show_id, c)] :=
      dictInsert_of_not_mem _ _ _ (hdisj c (List.mem_cons_self c rest))
    have hdisj' : ∀ c' ∈ rest,
        c'.show_id ∉ (d ++ [(c.show_id, c)]).map Prod.fst := by
      intro c' hc'
      simp only [List.map_append, List.mem_append, List.map_cons,
        List.map_nil, List.mem_singleton]
      push_neg
      refine ⟨hdisj c' (List.mem_cons_of_mem _ hc'), ?_⟩
      intro heq
      exact hnd.1 (heq ▸ List.mem_map_of_mem Concert.show_id hc')
    calc (c :: rest).foldl (fun acc c => dictInsert c.show_id c acc) d
        = rest.foldl (fun acc c => dictInsert c.show_id c acc)
            (d ++ [(c.show_id, c)]) := by rw [List.foldl_cons, hstep]
      _ = (d ++ [(c.show_id, c)]) ++ rest.map (fun c => (c.show_id, c)) :=
            ih (d ++ [(c.show_id, c)]) hnd.2 hdisj'
      _ = d ++ (c :: rest).map (fun c => (c.show_id, c)) := by
            simp [List.append_assoc]

theorem toDict_eq_map (cs : List Concert)
    (hnd : (cs.map Concert.show_id).Nodup) :
    toDict cs = cs.map (fun c => (c.show_id, c)) := by
  simpa using toDict_go cs [] hnd (by simp)

theorem filter_map_key (cs : List Concert) (q : String → Bool) :
    ((cs.map (fun c => (c.show_id, c))).filter (fun p => q p.1)).map Prod.snd
      = cs.filter (fun c => q c.show_id) := by
  induction cs with
  | nil => rfl
  | cons c rest ih =>
    simp only [List.map_cons, List.filter_cons]
    cases hq : q c.show_id <;> simp [hq, ih]

theorem dictHasKey_of_mem (d : List (String × Concert)) (p : String × Concert)
    (hp : p ∈ d) : dictHasKey d p.1 = true := by
  simp only [dictHasKey, List.any_eq_true]
  exact ⟨p, hp, by simp⟩

theorem computeNew_eq_nil_of (cs : List Concert)
    (prev : List (String × Concert))
    (h : ∀ p ∈ toDict cs, dictHasKey prev p.1 = true) :
    computeNew cs prev = [] := by
  unfold computeNew
  have : (toDict cs).filter (fun p => !dictHasKey prev p.1) = [] := by
    rw [List.filter_eq_nil_iff]
    intro p hp
    simp [h p hp]
  rw [this]
  rfl

theorem computeNew_self (cs : List Concert) :
    computeNew cs (toDict cs) = [] :=
  computeNew_eq_nil_of cs (toDict cs) (fun p hp => dictHasKey_of_mem _ p hp)

theorem dictHasKey_savedDict (d : List (String × Concert)) (k : String) :
    dictHasKey (savedDict d) k = dictHasKey d k := by
  induction d with
  | nil => rfl
  | cons p rest ih => simp [savedDict, dictHasKey, List.any_cons] at ih ⊢; rw [ih]

theorem computeNew_self_saved (cs : List Concert) :
    computeNew cs (savedDict (toDict cs)) = [] :=
  computeNew_eq_nil_of cs _ (fun p hp => by
    rw [dictHasKey_savedDict]; exact dictHasKey_of_mem _ p hp)

/-- C1: for a current list with unique show_ids, the diff keeps exactly the
records whose show_id is not a key of the previous snapshot, in the order of
the current list; a record whose show_id is a key of the snapshot is never
included, whatever its other fields. -/
theorem diff_new_records_only_in_order (concerts : List Concert)
    (prev : List (String × Concert))
    (h : (concerts.map Concert.show_id).Nodup) :
    computeNew concerts prev
      = concerts.filter (fun c => !dictHasKey prev c.show_id) ∧
    ∀ c ∈ computeNew concerts prev, dictHasKey prev c.show_id = false := by
  have heq : computeNew concerts prev
      = concerts.filter (fun c => !dictHasKey prev c.show_id) := by
    unfold computeNew
    rw [toDict_eq_map concerts h]
    exact filter_map_key concerts (fun k => !dictHasKey prev k)
  refine ⟨heq, ?_⟩
  intro c hc
  rw [heq] at hc
  have := (List.mem_filter.mp hc).2
  simpa using this

theorem diff_new_records_only_in_order_witness :
    computeNew [showA, showB, showC] [("b2", showBv1)] = [showA, showC] ∧
    dictHasKey [("b2", showBv1)] showB.show_id = true := by
  have h := diff_new_records_only_in_order [showA, showB, showC]
    [("b2", showBv1)] (by decide)
  exact ⟨h.1.trans (by decide), by decide⟩

/-- C7: diffing any list (with unique ids) against the snapshot built from
that same list yields the empty list — nothing already saved is reported as
new. -/
theorem diff_idempotent (X : List Concert)
    (_h : (X.map Concert.show_id).Nodup) :
    computeNew X (toDict X) = [] :=
  computeNew_self X

theorem diff_idempotent_witness :
    computeNew [showA, showB] (toDict [showA, showB]) = [] :=
  diff_idempotent [showA, showB] (by decide)

/-! Lemmas about the per-subscriber dispatch loop. -/

theorem attemptUid_primaryAttempt (imageUrl : Option String) (message : String)
    (uid : Int) : attemptUid (primaryAttempt imageUrl message uid) = uid := by
  cases imageUrl <;> rfl

theorem handleSubscriber_ok (bot : TgBot) (imageUrl : Option String)
    (message : String) (uid : Int)
    (h : firstSendResult bot imageUrl message uid = .ok ()) :
    handleSubscriber bot imageUrl message uid
      = ([primaryAttempt imageUrl message uid], false) := by
  cases imageUrl with
  | none =>
    simp only [firstSendResult] at h
    simp [handleSubscriber, h, primaryAttempt]
  | some url =>
    simp only [firstSendResult] at h
    simp [handleSubscriber, h, primaryAttempt]

theorem handleSubscriber_error_snd (bot : TgBot) (imageUrl : Option String)
    (message : String) (uid : Int) (e : String)
    (h : firstSendResult bot imageUrl message uid = .error e) :
    (handleSubscriber bot imageUrl message uid).2 = isPermanent e := by
  cases imageUrl with
  | none =>
    simp only [firstSendResult] at h
    simp [handleSubscriber, h]
  | some url =>
    simp only [firstSendResult] at h
    simp [handleSubscriber, h]

theorem handleSubscriber_uids (bot : TgBot) (imageUrl : Option String)
    (message : String) (uid : Int) :
    ∀ a ∈ (handleSubscriber bot imageUrl message uid).1, attemptUid a = uid := by
  intro a ha
  cases imageUrl with
  | none =>
    cases hr : bot.sendMessage uid message with
    | ok v => simp [handleSubscriber, hr] at ha; simp [ha, attemptUid]
    | error e => simp [handleSubscriber, hr] at ha; simp [ha, attemptUid]
  | some url =>
    cases hr : bot.sendPhoto uid url message with
    | ok v => simp [handleSubscriber, hr] at ha; simp [ha, attemptUid]
    | error e =>
      simp only [handleSubscriber, hr, List.mem_cons] at ha
      rcases ha with rfl | ha
      · rfl
      · cases hp : isPhotoErr e <;> simp [hp] at ha
        simp [ha, attemptUid]

theorem handleSubscriber_filter_ne (bot : TgBot) (imageUrl : Option String)
    (message : String) (uid t : Int) (hut : uid ≠ t) :
    (handleSubscriber bot imageUrl message uid).1.filter
      (fun a => attemptUid a == t) = [] := by
  rw [List.filter_eq_nil_iff]
  intro a ha
  have := handleSubscriber_uids bot imageUrl message uid a ha
  simp [this, hut]

theorem dispatchLoop_uids (bot : TgBot) (imageUrl : Option String)
    (message : String) :
    ∀ (l r : List Int) (a : Attempt),
      a ∈ (dispatchLoop bot imageUrl message l r).1 → attemptUid a ∈ l := by
  intro l
  induction l with
  | nil => intro r a ha; simp [dispatchLoop] at ha
  | cons u rest ih =>
    intro r a ha
    simp only [dispatchLoop, List.mem_append] at ha
    rcases ha with ha | ha
    · exact (handleSubscriber_uids bot imageUrl message u a ha) ▸
        List.mem_cons_self u rest
    · exact List.mem_cons_of_mem u (ih _ a ha)

theorem removeSubscriber_newReg (r : List Int) (u : Int) :
    (removeSubscriber r u).newReg = r.filter (fun x => x ≠ u) := rfl

theorem dispatchLoop_filter_nil (bot : TgBot) (imageUrl : Option String)
    (message : String) (l r : List Int) (t : Int) (ht : t ∉ l) :
    (dispatchLoop bot imageUrl message l r).1.filter
      (fun a => attemptUid a == t) = [] := by
  rw [List.filter_eq_nil_iff]
  intro a ha hbeq
  have huid : attemptUid a = t := by simpa using hbeq
  exact ht (huid ▸ dispatchLoop_uids bot imageUrl message l r a ha)

theorem filter_self_idem (p : Int → Bool) (l : List Int) :
    (l.filter p).filter p = l.filter p := by
  induction l with
  | nil => rfl
  | cons x xs ih => cases hp : p x <;> simp [List.filter_cons, hp, ih]

theorem dispatchLoop_reg (bot : TgBot) (imageUrl : Option String)
    (message : String) (s : Int) (e : String)
    (hse : firstSendResult bot imageUrl message s = .error e)
    (hperm : isPermanent e = true) :
    ∀ (l r : List Int),
      (∀ u ∈ l, u ≠ s → firstSendResult bot imageUrl message u = .ok ()) →
      (dispatchLoop bot imageUrl message l r).2
        = if s ∈ l then r.filter (fun u => u ≠ s) else r := by
  intro l
  induction l with
  | nil => intro r _; simp [dispatchLoop]
  | cons u rest ih =>
    intro r hok
    simp only [dispatchLoop]
    by_cases hus : u = s
    · subst hus
      have h2 : (handleSubscriber bot imageUrl message u).2 = true := by
        rw [handleSubscriber_error_snd bot imageUrl message u e hse]; exact hperm
      rw [h2]
      simp only [if_true, removeSubscriber_newReg]
      rw [ih _ (fun v hv hvs => hok v (List.mem_cons_of_mem _ hv) hvs)]
      by_cases hsr : u ∈ rest
      · simp [hsr, filter_self_idem]
      · simp [hsr]
    · have h1 := handleSubscriber_ok bot imageUrl message u
        (hok u (List.mem_cons_self u rest) hus)
      rw [h1]
      simp only [Bool.false_eq_true, if_false]
      rw [ih r (fun v hv hvs => hok v (List.mem_cons_of_mem _ hv) hvs)]
      simp [List.mem_cons, Ne.symm hus]

theorem dispatchLoop_filter (bot : TgBot) (imageUrl : Option String)
    (message : String) (s t : Int) (hts : t ≠ s) :
    ∀ (l r : List Int), l.Nodup → t ∈ l →
      (∀ u ∈ l, u ≠ s → firstSendResult bot imageUrl message u = .ok ()) →
      (dispatchLoop bot imageUrl message l r).1.filter
        (fun a => attemptUid a == t) = [primaryAttempt imageUrl message t] := by
  intro l
  induction l with
  | nil => intro r _ htl; simp at htl
  | cons u rest ih =>
    intro r hnd htl hok
    simp only [dispatchLoop, List.filter_append]
    rw [List.nodup_cons] at hnd
    by_cases hut : u = t
    · subst hut
      have h1 := handleSubscriber_ok bot imageUrl message u
        (hok u (List.mem_cons_self u rest) hts)
      rw [h1]
      have hhead : ([primaryAttempt imageUrl message u].filter
          (fun a => attemptUid a == u)) = [primaryAttempt imageUrl message u] := by
        simp [attemptUid_primaryAttempt]
      simp only [Bool.false_eq_true, if_false]
      rw [hhead, dispatchLoop_filter_nil bot imageUrl message rest r u hnd.1,
        List.append_nil]
    · have hhead := handleSubscriber_filter_ne bot imageUrl message u t hut
      rw [hhead, List.nil_append]
      have htr : t ∈ rest := by
        rcases List.mem_cons.mp htl with h | h
        · exact absurd h.symm hut
        · exact h
      exact ih _ hnd.2 htr (fun v hv hvs => hok v (List.mem_cons_of_mem _ hv) hvs)

/-- C4: when the delivery to subscriber s fails with a message matching a
permanent-failure phrase (case-insensitive substring match) and every other
subscriber's delivery succeeds, then after the pass: s is removed from the
registry; every other subscriber received exactly one delivery attempt for
the item; and the dispatch continues to subsequent items with the registry
minus s (the failure aborts nothing). -/
theorem permanent_failure_removes_subscriber (bot : TgBot) (c : Concert)
    (reg : List Int) (s : Int) (e : String)
    (hnd : reg.Nodup) (hs : s ∈ reg)
    (hse : firstSendResult bot (getConcertImageUrl c)
      (formatSingleConcertMessage c) s = .error e)
    (hperm : isPermanent e = true)
    (hok : ∀ t ∈ reg, t ≠ s → firstSendResult bot (getConcertImageUrl c)
      (formatSingleConcertMessage c) t = .ok ()) :
    (sendConcertNotification bot c reg).2 = reg.filter (fun u => u ≠ s) ∧
    (∀ t ∈ reg, t ≠ s →
      (sendConcertNotification bot c reg).1.filter (fun a => attemptUid a == t)
        = [primaryAttempt (getConcertImageUrl c)
            (formatSingleConcertMessage c) t]) ∧
    (∀ rest : List Concert,
      itemsLoop false bot (c :: rest) reg =
        ((sendConcertNotification bot c reg).1 ++
          (itemsLoop false bot rest (reg.filter (fun u => u ≠ s))).1,
         (itemsLoop false bot rest (reg.filter (fun u => u ≠ s))).2)) := by
  have hreg : (sendConcertNotification bot c reg).2
      = reg.filter (fun u => u ≠ s) := by
    unfold sendConcertNotification
    rw [dispatchLoop_reg bot _ _ s e hse hperm reg reg hok]
    simp [hs]
  refine ⟨hreg, ?_, ?_⟩
  · intro t ht hts
    exact dispatchLoop_filter bot _ _ s t hts reg reg hnd ht hok
  · intro rest
    have hpass2 : (dispatchLoop bot (getConcertImageUrl c)
        (formatSingleConcertMessage c) reg reg).2
        = reg.filter (fun u => u ≠ s) := hreg
    simp only [itemsLoop, getAllSubscribers, Bool.false_eq_true, if_false,
      hpass2]
    rfl

theorem permanent_failure_removes_subscriber_witness :
    (sendConcertNotification c4Bot c4Concert [1, 2, 3]).2 = [1, 3] ∧
    (sendConcertNotification c4Bot c4Concert [1, 2, 3]).1.filter
        (fun a => attemptUid a == (1 : Int))
      = [primaryAttempt (getConcertImageUrl c4Concert)
          (formatSingleConcertMessage c4Concert) 1] ∧
    (sendConcertNotification c4Bot c4Concert [1, 2, 3]).1.filter
        (fun a => attemptUid a == (3 : Int))
      = [primaryAttempt (getConcertImageUrl c4Concert)
          (formatSingleConcertMessage c4Concert) 3] := by
  have hok : ∀ t ∈ ([1, 2, 3] : List Int), t ≠ 2 →
      firstSendResult c4Bot (getConcertImageUrl c4Concert)
        (formatSingleConcertMessage c4Concert) t = .ok () := by
    intro t ht hts
    simp only [List.mem_cons, List.not_mem_nil, or_false] at ht
    rcases ht with rfl | rfl | rfl
    · rfl
    · exact absurd rfl hts
    · rfl
  have h := permanent_failure_removes_subscriber c4Bot c4Concert [1, 2, 3] 2
    "Forbidden: bot was blocked by the user" (by decide) (by decide)
    rfl (by decide) hok
  exact ⟨h.1.trans (by decide), h.2.1 1 (by decide) (by decide),
    h.2.1 3 (by decide) (by decide)⟩

/-- C5: when a photo delivery for a subscriber/item fails with an
attachment-classified error ("photo" in the message), exactly one text-only
retry follows for that subscriber and item — and nothing further, whatever
the retry's own outcome; the subscriber is removed exactly when the error is
permanent-classified, so no removal occurs for a non-permanent error. -/
theorem attachment_error_text_fallback (bot : TgBot) (uid : Int)
    (url message e : String)
    (hfail : bot.sendPhoto uid url message = .error e)
    (hphoto : isPhotoErr e = true) :
    (handleSubscriber bot (some url) message uid).1
      = [.photo uid url message, .text uid message] ∧
    (handleSubscriber bot (some url) message uid).2 = isPermanent e ∧
    (isPermanent e = false →
      (handleSubscriber bot (some url) message uid).2 = false) := by
  refine ⟨by simp [handleSubscriber, hfail, hphoto],
    by simp [handleSubscriber, hfail],
    fun h => by simp [handleSubscriber, hfail, h]⟩

theorem attachment_error_text_fallback_witness :
    (handleSubscriber c5Bot
        (some "https://images.barby.co.il/Logos/logo.png") "m" 9).1
      = [.photo 9 "https://images.barby.co.il/Logos/logo.png" "m",
         .text 9 "m"] ∧
    (handleSubscriber c5Bot
        (some "https://images.barby.co.il/Logos/logo.png") "m" 9).2
      = false := by
  have h := attachment_error_text_fallback c5Bot 9
    "https://images.barby.co.il/Logos/logo.png" "m"
    "Bad Request: wrong type of the web page content: photo expected"
    rfl (by decide)
  exact ⟨h.1, h.2.2 (by decide)⟩

/-- C10: when the registry backend raises on reads, the subscriber count
reads as 0 and the subscriber list as empty, and a dispatch pass makes no
transport call and leaves the registry untouched — the invocation is silently
skipped, not surfaced as an error (the embedded functions return normally). -/
theorem registry_read_failure_silent (bot : TgBot) (reg : List Int)
    (items : List Concert) :
    getSubscriberCount ⟨reg, true⟩ = 0 ∧
    getAllSubscribers ⟨reg, true⟩ = [] ∧
    notifyNewConcerts true bot reg items = ([], reg) := by
  refine ⟨rfl, rfl, ?_⟩
  unfold notifyNewConcerts
  cases items <;> simp [getSubscriberCount]

/-- C8 (amended): in the rendered message, an empty price renders as the
"TBA" sentinel; an empty time degrades to date-only and to "TBA" when the
date is also empty; the title line is included iff the display title is
non-empty, differs from the artist name, and its length after stripping
leading/trailing whitespace exceeds 3 characters (the displayed line itself
is whitespace-normalized); a set sold-out flag yields the marked sold-out
status suffix; and the full message is assembled from exactly these parts. -/
theorem render_missing_fields (c : Concert) :
    (msgPrice c = "" → msgPriceText c = "TBA") ∧
    (msgDate c ≠ "" → msgTime c = "" → msgDatetimeStr c = msgDate c) ∧
    (msgDate c = "" → msgTime c = "" → msgDatetimeStr c = "TBA") ∧
    (msgIncludeTitle c = true ↔ (msgDisplayTitle c ≠ "" ∧
      msgDisplayTitle c ≠ msgArtist c ∧
      3 < (pyStrip (msgDisplayTitle c)).length)) ∧
    (msgIsSoldOut c = true → msgStatus c = " 🔴 <b>אזל כרטיסים</b>") ∧
    formatSingleConcertMessage c =
      "🆕 <b>הופעה חדשה בבארבי!</b>\n\n" ++
      "🎵 <b>" ++ msgArtist c ++ "</b>\n" ++
      (if msgIncludeTitle c then "📝 <i>" ++ msgCleanTitle c ++ "</i>\n"
       else "") ++
      "📅 " ++ msgDatetimeStr c ++ "\n" ++
      "💰 " ++ msgPriceText c ++ msgSeatPart c ++ msgStatus c ++ "\n" ++
      "🎫 <a href=\"" ++ msgUrl c ++ "\">קניית כרטיסים</a>\n\n" ++
      "🔔 הודעה מבוט התראות בארבי" := by
  refine ⟨?_, ?_, ?_, ?_, ?_, rfl⟩
  · intro h; simp [msgPriceText, h]
  · intro hd ht; simp [msgDatetimeStr, hd, ht]
  · intro hd ht; simp [msgDatetimeStr, hd, ht]
  · simp [msgIncludeTitle]
  · intro h; simp [msgStatus, h]

theorem render_missing_fields_witness :
    msgPriceText c8w1 = "TBA" ∧
    msgDatetimeStr c8w1 = "01/01/2030" ∧
    msgStatus c8w1 = " 🔴 <b>אזל כרטיסים</b>" ∧
    msgIncludeTitle c8w1 = true ∧
    msgDatetimeStr c8w2 = "TBA" := by
  have h1 := render_missing_fields c8w1
  have h2 := render_missing_fields c8w2
  exact ⟨h1.1 rfl, h1.2.1 (by decide) rfl,
    h1.2.2.2.2.1 (by decide),
    h1.2.2.2.1.mpr ⟨by decide, by decide, by decide⟩,
    h2.2.2.1 rfl rfl⟩

/-- C8 counterexample: for the record with artist "X" and title "a  b"
(inner double space), the code includes the title line (the merely-stripped
length is 4 > 3) although the claim's condition fails (the
whitespace-normalized length is 3, not > 3). -/
theorem render_title_gate_counterexample :
    msgIncludeTitle c8cex = true ∧
    specTitleIncluded c8cex = false ∧
    (normalizeWs (msgDisplayTitle c8cex)).length = 3 ∧
    (pyStrip (msgDisplayTitle c8cex)).length = 4 ∧
    formatSingleConcertMessage c8cex =
      "🆕 <b>הופעה חדשה בבארבי!</b>\n\n🎵 <b>X</b>\n📝 <i>a b</i>\n📅 TBA\n💰 TBA\n🎫 <a href=\"https://barby.co.il\">קניית כרטיסים</a>\n\n🔔 הודעה מבוט התראות בארבי" := by
  refine ⟨by decide, by decide, by decide, by decide, ?_⟩
  decide

/-! Lemmas unfolding the orchestrator's three outcomes. -/

theorem lambdaHandler_notify_case (concerts : List Concert)
    (store : List (String × Concert)) (saveOk rf : Bool) (bot : TgBot)
    (reg : List Int) (hne : computeNew concerts store ≠ []) :
    lambdaHandler concerts store saveOk rf bot reg =
      ⟨⟨200, "Success!"⟩,
       (if saveOk then savedDict (toDict concerts) else store),
       (notifyNewConcerts rf bot reg (computeNew concerts store)).2,
       .save (savedDict (toDict concerts)) saveOk ::
         (notifyNewConcerts rf bot reg (computeNew concerts store)).1.map
           .send⟩ := by
  cases concerts with
  | nil => exact absurd rfl hne
  | cons a l =>
    cases hnc : computeNew (a :: l) store with
    | nil => exact absurd hnc hne
    | cons x xs => simp [lambdaHandler, hnc]

theorem lambdaHandler_no_change (concerts : List Concert)
    (store : List (String × Concert)) (saveOk rf : Bool) (bot : TgBot)
    (reg : List Int) (hc : concerts ≠ [])
    (hnc : computeNew concerts store = []) :
    lambdaHandler concerts store saveOk rf bot reg
      = ⟨⟨200, "Success!"⟩, store, reg, []⟩ := by
  cases concerts with
  | nil => exact absurd rfl hc
  | cons a l => simp [lambdaHandler, hnc]

/-- C2 (amended): when the snapshot-save backend fails, the error is caught
and logged inside save_state; the orchestrator keeps going with the
un-persisted snapshot (the store is unchanged), still dispatches the
notifications, and reports the normal success result — not an error-shaped
one. -/
theorem save_failure_swallowed (concerts : List Concert)
    (store : List (String × Concert)) (readFails : Bool) (bot : TgBot)
    (reg : List Int) (hne : computeNew concerts store ≠ []) :
    (lambdaHandler concerts store false readFails bot reg).result
      = ⟨200, "Success!"⟩ ∧
    (lambdaHandler concerts store false readFails bot reg).store = store ∧
    (lambdaHandler concerts store false readFails bot reg).trace
      = Effect.save (savedDict (toDict concerts)) false ::
        (notifyNewConcerts readFails bot reg
          (computeNew concerts store)).1.map Effect.send := by
  rw [lambdaHandler_notify_case concerts store false readFails bot reg hne]
  exact ⟨rfl, rfl, rfl⟩

theorem save_failure_swallowed_witness :
    (lambdaHandler [showA] [] false false okBot [7]).result
      = ⟨200, "Success!"⟩ ∧
    (lambdaHandler [showA] [] false false okBot [7]).store = [] := by
  have h := save_failure_swallowed [showA] [] false okBot [7] (by decide)
  exact ⟨h.1, h.2.1⟩

/-- C2 counterexample: a concrete invocation whose snapshot save fails still
dispatches a notification (a send effect follows the failed save in the
trace), leaves the store empty (un-persisted), and returns the 200/"Success!"
result rather than an error-shaped one. -/
theorem save_failure_counterexample :
    lambdaHandler [showA] [] false false okBot [7] =
      ⟨⟨200, "Success!"⟩, [], [7],
       [.save [("5286", stripRaw showA)] false,
        .send (.text 7 (formatSingleConcertMessage showA))]⟩ := by
  decide

/-- C3: with a successful save and a non-empty diff, the save effect precedes
every send effect in the invocation's trace, and re-running the invocation on
the resulting store with the same fetch — whatever happened during dispatch —
finds an empty diff and produces the NO_CHANGE outcome: no save, no send,
store unchanged. -/
theorem save_before_notify_at_most_once (concerts : List Concert)
    (store : List (String × Concert)) (rf rf2 saveOk2 : Bool)
    (bot bot2 : TgBot) (reg reg2 : List Int)
    (hne : computeNew concerts store ≠ []) :
    (lambdaHandler concerts store true rf bot reg).trace
      = Effect.save (savedDict (toDict concerts)) true ::
        (notifyNewConcerts rf bot reg (computeNew concerts store)).1.map
          Effect.send ∧
    (lambdaHandler concerts store true rf bot reg).store
      = savedDict (toDict concerts) ∧
    computeNew concerts (lambdaHandler concerts store true rf bot reg).store
      = [] ∧
    lambdaHandler concerts (lambdaHandler concerts store true rf bot reg).store
        saveOk2 rf2 bot2 reg2
      = ⟨⟨200, "Success!"⟩,
         (lambdaHandler concerts store true rf bot reg).store, reg2, []⟩ := by
  have hcne : concerts ≠ [] := by
    intro hc
    exact hne (by rw [hc]; rfl)
  have hrun := lambdaHandler_notify_case concerts store true rf bot reg hne
  have hstore : (lambdaHandler concerts store true rf bot reg).store
      = savedDict (toDict concerts) := by rw [hrun]; simp
  refine ⟨by rw [hrun], hstore, ?_, ?_⟩
  · rw [hstore]
    exact computeNew_self_saved concerts
  · rw [hstore]
    exact lambdaHandler_no_change concerts _ saveOk2 rf2 bot2 reg2 hcne
      (computeNew_self_saved concerts)

theorem save_before_notify_at_most_once_witness :
    computeNew [showA] (lambdaHandler [showA] [] true false failBot [7]).store
      = [] ∧
    lambdaHandler [showA]
        (lambdaHandler [showA] [] true false failBot [7]).store
        true false failBot [7]
      = ⟨⟨200, "Success!"⟩,
         (lambdaHandler [showA] [] true false failBot [7]).store, [7], []⟩ := by
  have h := save_before_notify_at_most_once [showA] [] false false true
    failBot failBot [7] [7] (by decide)
  exact ⟨h.2.2.1, h.2.2.2⟩

/-- C6 (amended): the source adapter returns a bare empty list both when the
fetch fails (get_shows_raw yielded nothing) and when the upstream list is
legitimately empty — there is no distinct failure indicator — and the
orchestrator consequently ends early with the same neutral "No concerts
found" no-op result in both cases. -/
theorem fetch_failure_indistinct_from_empty
    (store : List (String × Concert)) (saveOk rf : Bool) (bot : TgBot)
    (reg : List Int) :
    getConcerts none = ([] : List Concert) ∧
    getConcerts (some ⟨some (ShowsNode.many [])⟩) = ([] : List Concert) ∧
    lambdaHandler (getConcerts none) store saveOk rf bot reg
      = ⟨⟨200, "No concerts found"⟩, store, reg, []⟩ ∧
    lambdaHandler (getConcerts (some ⟨some (ShowsNode.many [])⟩)) store saveOk
        rf bot reg
      = ⟨⟨200, "No concerts found"⟩, store, reg, []⟩ :=
  ⟨rfl, rfl, rfl, rfl⟩

/-- C6 counterexample: the failed-fetch return value equals the
legitimately-empty return value — a bare empty list in both cases, so no
explicit failure indicator distinct from the empty list exists. -/
theorem fetch_failure_counterexample :
    getConcerts none = ([] : List Concert) ∧
    getConcerts (some ⟨some (ShowsNode.many [])⟩) = ([] : List Concert) ∧
    getConcerts none = getConcerts (some ⟨some (ShowsNode.many [])⟩) :=
  ⟨rfl, rfl, rfl⟩

/-- C9 (amended): remove_subscriber deletes a present subscriber and logs the
removal; removing an absent user_id is a no-op logged as "not found" rather
than an error; but the operation returns None — it does not return the
removed-or-not boolean. -/
theorem remove_subscriber_contract (reg : List Int) (uid : Int) :
    (removeSubscriber reg uid).ret = none ∧
    (removeSubscriber reg uid).newReg = reg.filter (fun u => u ≠ uid) ∧
    ((removeSubscriber reg uid).log = RemoveLog.notFound ↔ uid ∉ reg) := by
  refine ⟨rfl, rfl, ?_⟩
  simp only [removeSubscriber]
  by_cases h : uid ∈ reg
  · simp [List.elem_iff.mpr h, h]
  · have : reg.contains uid = false := by
      rw [Bool.eq_false_iff]
      intro hc
      exact h (List.elem_iff.mp hc)
    simp [this, h]

/-- C9 counterexample: removing a present subscriber returns None, not the
boolean true the claim requires (and removing an absent one also returns
None, not false). -/
theorem remove_returns_none_counterexample :
    (removeSubscriber [5] 5).ret = none ∧
    (removeSubscriber [] 5).ret = none ∧
    (5 : Int) ∈ [(5 : Int)] :=
  ⟨rfl, rfl, by decide⟩
